import Mathlib

/-!
Verification of the Unix time PAL shim `src/Native/Unix/System.Native/pal_time.c`.

The C file branches at compile time on the platform macros `HAVE_CLOCK_MONOTONIC`,
`HAVE_MACH_ABSOLUTE_TIME` and `HAVE_MACH_TIMEBASE_INFO`.  We model those flags as a
`Platform` record and each OS primitive's response as explicit input data, so every
shim entry point becomes a pure function of the platform configuration and the OS
responses.  Machine integers are modelled as `Nat`/`Int` with an explicit `% 2 ^ 64`
wherever the C performs `uint64_t` arithmetic.  `assert` is a no-op in release
builds and is modelled as such.
-/

-- enum { SecondsToMicroSeconds = 1000000, SecondsToNanoSeconds = 1000000000 };
def SecondsToMicroSeconds : Nat := 1000000

def SecondsToNanoSeconds : Nat := 1000000000

/-- Modulus of `uint64_t` arithmetic. -/
def u64Mod : Nat := 2 ^ 64

/-- The C cast `(uint64_t)x` applied to a signed integer value `x`. -/
def castU64 (x : Int) : Nat := (x % ((2 : Int) ^ 64)).toNat

/-- The Unix `EINTR` error code. -/
def EINTR : Nat := 4

/-- The Mach `KERN_SUCCESS` return code. -/
def KERN_SUCCESS : Int := 0

/-- Modelled from the spec: `FileTimePair` (source struct `UTimBuf`, declared in
the header `pal_time.h`, which is not among the sources): two signed integer
fields holding access time and modification time in seconds since the epoch. -/
structure UTimBuf where
  AcTime : Int
  ModTime : Int
deriving DecidableEq

/-- Modelled from the spec: `FileTimeValPair` (source struct `TimeValPair`,
declared in `pal_time.h`): four signed integer fields holding access-time
seconds/microseconds and modification-time seconds/microseconds. -/
structure TimeValPair where
  AcTimeSec : Int
  AcTimeUSec : Int
  ModTimeSec : Int
  ModTimeUSec : Int
deriving DecidableEq

/-- `struct utimbuf` from `<utime.h>`: `actime` and `modtime`, both `time_t`. -/
structure utimbuf where
  actime : Int
  modtime : Int
deriving DecidableEq

/-- `struct timeval` from `<sys/time.h>`. -/
structure timeval where
  tv_sec : Int
  tv_usec : Int
deriving DecidableEq

/-- `struct timespec` from `<time.h>`. -/
structure timespec where
  tv_sec : Int
  tv_nsec : Int
deriving DecidableEq

/-- `ConvertUTimBuf`: marshal the PAL structure into the native `utimbuf`.
The `(time_t)` casts are between 64-bit signed integers and are the identity. -/
def ConvertUTimBuf (pal : UTimBuf) : utimbuf :=
  { actime := pal.AcTime, modtime := pal.ModTime }

/-- `ConvertTimeValPair`: marshal the PAL structure into the two-element native
`struct timeval` array, modelled as a pair.  The `(long)` casts are between
64-bit signed integers and are the identity. -/
def ConvertTimeValPair (pal : TimeValPair) : timeval × timeval :=
  ({ tv_sec := pal.AcTimeSec, tv_usec := pal.AcTimeUSec },
   { tv_sec := pal.ModTimeSec, tv_usec := pal.ModTimeUSec })

/-- Result of one attempt of an interruptible syscall: the value it returned and
the `errno` it left behind. -/
structure SyscallResult where
  ret : Int
  errn : Nat
deriving DecidableEq

/-- Modelled from the spec: the `CheckInterrupted` macro (defined in
`pal_utilities.h`, which is not among the sources) holds exactly when the call
was interrupted by a signal before completing, i.e. it failed with
`errno == EINTR`. -/
def CheckInterrupted (r : SyscallResult) : Bool :=
  r.ret == -1 && r.errn == EINTR

/-- The loop `while (CheckInterrupted(result = call()));` run against a finite
trace of OS responses to the successive attempts: every interrupted attempt is
skipped and the first non-interrupted result is returned; `none` means the trace
ended while the call was still being interrupted (the C loop would simply keep
retrying). -/
def retryWhileInterrupted : List SyscallResult → Option Int
  | [] => none
  | r :: rs => if CheckInterrupted r then retryWhileInterrupted rs else some r.ret

/-- `SystemNative_UTime`: marshal `times` with `ConvertUTimBuf`, then call
`utime(path, &temp)` under the interrupted-call retry loop.  The OS is modelled
as a function from the call's arguments to the trace of responses to the
successive attempts. -/
def SystemNative_UTime (path : String) (times : UTimBuf)
    (utime : String → utimbuf → List SyscallResult) : Option Int :=
  retryWhileInterrupted (utime path (ConvertUTimBuf times))

/-- `SystemNative_UTimes`: marshal `times` with `ConvertTimeValPair`, then call
`utimes(path, temp)` under the interrupted-call retry loop. -/
def SystemNative_UTimes (path : String) (times : TimeValPair)
    (utimes : String → timeval × timeval → List SyscallResult) : Option Int :=
  retryWhileInterrupted (utimes path (ConvertTimeValPair times))

/-- The compile-time platform configuration: which facilities the preprocessor
macros reported. -/
structure Platform where
  HAVE_CLOCK_MONOTONIC : Bool
  HAVE_MACH_ABSOLUTE_TIME : Bool
  HAVE_MACH_TIMEBASE_INFO : Bool
deriving DecidableEq

/-- Response of `clock_gettime(CLOCK_MONOTONIC, &ts)`: the return value (0 on
success) and the contents of the output `timespec` after the call. -/
structure clockGettimeResult where
  ret : Int
  ts : timespec
deriving DecidableEq

/-- Response of `mach_timebase_info(&mtid)`: the `kern_return_t` and the two
`uint32_t` fields of the reported ratio. -/
structure machTimebaseResult where
  ret : Int
  numer : Nat
  denom : Nat
deriving DecidableEq

/-- Response of `gettimeofday(&tv, NULL)`: the return value (0 on success) and
the contents of the output `timeval` after the call. -/
structure gettimeofdayResult where
  ret : Int
  tv : timeval
deriving DecidableEq

/-- The OS responses available to one shim call. -/
structure OSWorld where
  clockMonotonic : clockGettimeResult
  timebase : machTimebaseResult
  machAbsoluteTime : Nat
  timeofday : gettimeofdayResult
deriving DecidableEq

/-- `SystemNative_GetTimestampResolution`, returning the pair
(written `*resolution`, returned status). -/
def SystemNative_GetTimestampResolution (p : Platform) (w : OSWorld) : Nat × Nat :=
  if p.HAVE_CLOCK_MONOTONIC then
    if w.clockMonotonic.ret = 0 then (SecondsToNanoSeconds, 1)
    else (0, 0)
  else if p.HAVE_MACH_ABSOLUTE_TIME then
    if w.timebase.ret = KERN_SUCCESS then
      (SecondsToNanoSeconds * (w.timebase.denom / w.timebase.numer) % u64Mod, 1)
    else (0, 0)
  else
    (SecondsToMicroSeconds, 1)

/-- `SystemNative_GetTimestamp`, returning the pair
(written `*timestamp`, returned status).  On the `HAVE_CLOCK_MONOTONIC` path the
return value of `clock_gettime` is only asserted on (a no-op in release builds)
and the computation uses the output `timespec` unconditionally. -/
def SystemNative_GetTimestamp (p : Platform) (w : OSWorld) : Nat × Nat :=
  if p.HAVE_CLOCK_MONOTONIC then
    ((castU64 w.clockMonotonic.ts.tv_sec * SecondsToNanoSeconds
        + castU64 w.clockMonotonic.ts.tv_nsec) % u64Mod, 1)
  else if p.HAVE_MACH_ABSOLUTE_TIME then
    (w.machAbsoluteTime, 1)
  else
    if w.timeofday.ret = 0 then
      ((castU64 w.timeofday.tv.tv_sec * SecondsToMicroSeconds
          + castU64 w.timeofday.tv.tv_usec) % u64Mod, 1)
    else (0, 0)

/-- `SystemNative_GetAbsoluteTime`, returning the pair
(written `*timestamp`, returned status). -/
def SystemNative_GetAbsoluteTime (p : Platform) (w : OSWorld) : Nat × Nat :=
  if p.HAVE_MACH_ABSOLUTE_TIME then
    (w.machAbsoluteTime, 1)
  else
    (0, 0)

/-- `SystemNative_GetTimebaseInfo`, returning the pair
(written (`*numer`, `*denom`), returned status).  The `assert(ret == KERN_SUCCESS)`
is a no-op in release builds; on probe failure control falls through to the
shared `{ *numer = 1; *denom = 1; }` block. -/
def SystemNative_GetTimebaseInfo (p : Platform) (w : OSWorld) : (Nat × Nat) × Nat :=
  if p.HAVE_MACH_TIMEBASE_INFO then
    if w.timebase.ret = KERN_SUCCESS then
      ((w.timebase.numer, w.timebase.denom), 1)
    else ((1, 1), 1)
  else ((1, 1), 1)

/-- Helper bound: with a `uint32_t` denominator the product
`10^9 * (denom / numer)` fits in a `uint64_t`, so the modular reduction is the
identity. -/
theorem timebase_resolution_lt (d n : Nat) (hd : d < 2 ^ 32) :
    SecondsToNanoSeconds * (d / n) < u64Mod := by
  have h1 : d / n ≤ d := Nat.div_le_self d n
  simp only [SecondsToNanoSeconds, u64Mod]
  omega

/-- C1: on a platform where only the hardware-timebase-ratio facility is
available, `SystemNative_GetTimestampResolution` writes a resolution equal to
10^9 times the truncating integer quotient `denom / numer` of the reported
timebase ratio and returns 1 when the probe succeeds; when the probe fails it
writes 0 and returns 0. -/
theorem getTimestampResolution_timebase_path (p : Platform) (w : OSWorld)
    (hcm : p.HAVE_CLOCK_MONOTONIC = false)
    (hma : p.HAVE_MACH_ABSOLUTE_TIME = true)
    (hd : w.timebase.denom < 2 ^ 32) :
    (w.timebase.ret = KERN_SUCCESS →
      SystemNative_GetTimestampResolution p w
        = (10 ^ 9 * (w.timebase.denom / w.timebase.numer), 1)) ∧
    (w.timebase.ret ≠ KERN_SUCCESS →
      SystemNative_GetTimestampResolution p w = (0, 0)) := by
  constructor
  · intro h
    simp only [SystemNative_GetTimestampResolution, hcm, hma, h, if_true, if_false,
      Bool.false_eq_true, ite_true, ite_false]
    have := timebase_resolution_lt w.timebase.denom w.timebase.numer hd
    simp only [SecondsToNanoSeconds] at *
    rw [Nat.mod_eq_of_lt this]
    norm_num
  · intro h
    simp [SystemNative_GetTimestampResolution, hcm, hma, h]

/-- C1 witness: a hardware-timebase-only platform whose probe reports the ratio
(numer, denom) = (1, 3) with success. -/
theorem getTimestampResolution_timebase_path_witness :
    SystemNative_GetTimestampResolution
        ⟨false, true, true⟩ ⟨⟨0, ⟨0, 0⟩⟩, ⟨0, 1, 3⟩, 0, ⟨0, ⟨0, 0⟩⟩⟩
      = (10 ^ 9 * (3 / 1), 1) :=
  (getTimestampResolution_timebase_path ⟨false, true, true⟩
    ⟨⟨0, ⟨0, 0⟩⟩, ⟨0, 1, 3⟩, 0, ⟨0, ⟨0, 0⟩⟩⟩ rfl rfl (by decide)).1 rfl

/-- C2: `SystemNative_GetTimebaseInfo` returns 1 on every call; on a platform
without the hardware-timebase facility it writes the identity ratio (1, 1); a
failing probe is never surfaced as a failure status. -/
theorem getTimebaseInfo_contract (p : Platform) (w : OSWorld) :
    (SystemNative_GetTimebaseInfo p w).2 = 1 ∧
    (p.HAVE_MACH_TIMEBASE_INFO = false →
      SystemNative_GetTimebaseInfo p w = ((1, 1), 1)) ∧
    (w.timebase.ret ≠ KERN_SUCCESS →
      (SystemNative_GetTimebaseInfo p w).2 = 1) := by
  refine ⟨?_, ?_, ?_⟩
  · simp only [SystemNative_GetTimebaseInfo]
    split
    · split <;> rfl
    · rfl
  · intro h
    simp [SystemNative_GetTimebaseInfo, h]
  · intro h
    simp [SystemNative_GetTimebaseInfo, h]

/-- C2 witness: a platform without the hardware-timebase facility writes (1, 1)
and returns 1. -/
theorem getTimebaseInfo_contract_witness :
    SystemNative_GetTimebaseInfo
        ⟨true, false, false⟩ ⟨⟨0, ⟨0, 0⟩⟩, ⟨0, 1, 1⟩, 0, ⟨0, ⟨0, 0⟩⟩⟩
      = ((1, 1), 1) :=
  (getTimebaseInfo_contract ⟨true, false, false⟩
    ⟨⟨0, ⟨0, 0⟩⟩, ⟨0, 1, 1⟩, 0, ⟨0, ⟨0, 0⟩⟩⟩).2.1 rfl

/-- C3: both `SystemNative_UTime` and `SystemNative_UTimes` run the identical
interrupted-call retry loop `retryWhileInterrupted` around the underlying OS
call; the loop retries exactly the attempts interrupted by a signal
(`CheckInterrupted`), returns immediately on any other outcome, and has no cap
on the number of retries: any number of consecutive interruptions followed by a
non-interrupted attempt yields that attempt's result. -/
theorem utime_retry_policy (path : String) (tb : UTimBuf) (tv : TimeValPair)
    (utime : String → utimbuf → List SyscallResult)
    (utimes : String → timeval × timeval → List SyscallResult) :
    (SystemNative_UTime path tb utime
      = retryWhileInterrupted (utime path (ConvertUTimBuf tb))) ∧
    (SystemNative_UTimes path tv utimes
      = retryWhileInterrupted (utimes path (ConvertTimeValPair tv))) ∧
    (∀ r rs, CheckInterrupted r = true →
      retryWhileInterrupted (r :: rs) = retryWhileInterrupted rs) ∧
    (∀ r rs, CheckInterrupted r = false →
      retryWhileInterrupted (r :: rs) = some r.ret) ∧
    (∀ n r, CheckInterrupted r = false →
      retryWhileInterrupted (List.replicate n ⟨-1, EINTR⟩ ++ [r]) = some r.ret) := by
  refine ⟨rfl, rfl, ?_, ?_, ?_⟩
  · intro r rs h
    simp [retryWhileInterrupted, h]
  · intro r rs h
    simp [retryWhileInterrupted, h]
  · intro n r h
    induction n with
    | zero => simp [retryWhileInterrupted, h]
    | succ k ih =>
        simp only [List.replicate_succ, List.cons_append, retryWhileInterrupted]
        rw [if_pos (by simp [CheckInterrupted, EINTR])]
        exact ih

/-- C3 witness: three signal interruptions followed by a successful attempt
yield the successful attempt's result. -/
theorem utime_retry_policy_witness :
    retryWhileInterrupted
        (List.replicate 3 (⟨-1, EINTR⟩ : SyscallResult) ++ [⟨0, 0⟩])
      = some 0 :=
  (utime_retry_policy "/tmp/x" ⟨0, 0⟩ ⟨0, 0, 0, 0⟩ (fun _ _ => []) (fun _ _ => [])).2.2.2.2
    3 ⟨0, 0⟩ rfl

/-- C4: on a platform with the high-resolution monotonic clock facility,
`SystemNative_GetTimestampResolution` probes `clock_gettime(CLOCK_MONOTONIC, ...)`;
if the probe succeeds it writes 10^9 and returns 1, and if the probe fails it
writes 0 and returns 0. -/
theorem getTimestampResolution_monotonic_path (p : Platform) (w : OSWorld)
    (hcm : p.HAVE_CLOCK_MONOTONIC = true) :
    (w.clockMonotonic.ret = 0 →
      SystemNative_GetTimestampResolution p w = (10 ^ 9, 1)) ∧
    (w.clockMonotonic.ret ≠ 0 →
      SystemNative_GetTimestampResolution p w = (0, 0)) := by
  constructor
  · intro h
    simp [SystemNative_GetTimestampResolution, hcm, h, SecondsToNanoSeconds]
  · intro h
    simp [SystemNative_GetTimestampResolution, hcm, h]

/-- C4 witness: a high-resolution platform with a successful probe writes 10^9
and returns 1. -/
theorem getTimestampResolution_monotonic_path_witness :
    SystemNative_GetTimestampResolution
        ⟨true, false, false⟩ ⟨⟨0, ⟨5, 7⟩⟩, ⟨0, 1, 1⟩, 0, ⟨0, ⟨0, 0⟩⟩⟩
      = (10 ^ 9, 1) :=
  (getTimestampResolution_monotonic_path ⟨true, false, false⟩
    ⟨⟨0, ⟨5, 7⟩⟩, ⟨0, 1, 1⟩, 0, ⟨0, ⟨0, 0⟩⟩⟩ rfl).1 rfl

/-- C5: on a platform with neither the high-resolution monotonic facility nor
the hardware-timebase facility, `SystemNative_GetTimestampResolution` always
writes 10^6 and always returns 1, for every OS response. -/
theorem getTimestampResolution_fallback_path (p : Platform) (w : OSWorld)
    (hcm : p.HAVE_CLOCK_MONOTONIC = false)
    (hma : p.HAVE_MACH_ABSOLUTE_TIME = false) :
    SystemNative_GetTimestampResolution p w = (10 ^ 6, 1) := by
  simp [SystemNative_GetTimestampResolution, hcm, hma, SecondsToMicroSeconds]

/-- C5 witness: the fallback platform writes 10^6 and returns 1. -/
theorem getTimestampResolution_fallback_path_witness :
    SystemNative_GetTimestampResolution
        ⟨false, false, false⟩ ⟨⟨-1, ⟨0, 0⟩⟩, ⟨-1, 0, 0⟩, 0, ⟨-1, ⟨0, 0⟩⟩⟩
      = (10 ^ 6, 1) :=
  getTimestampResolution_fallback_path ⟨false, false, false⟩
    ⟨⟨-1, ⟨0, 0⟩⟩, ⟨-1, 0, 0⟩, 0, ⟨-1, ⟨0, 0⟩⟩⟩ rfl rfl

/-- C6: on a platform lacking the hardware-timebase facility,
`SystemNative_GetAbsoluteTime` writes 0 and returns 0; on a platform with the
facility it writes the raw `mach_absolute_time` tick count unchanged and
returns 1. -/
theorem getAbsoluteTime_contract (p : Platform) (w : OSWorld) :
    (p.HAVE_MACH_ABSOLUTE_TIME = false →
      SystemNative_GetAbsoluteTime p w = (0, 0)) ∧
    (p.HAVE_MACH_ABSOLUTE_TIME = true →
      SystemNative_GetAbsoluteTime p w = (w.machAbsoluteTime, 1)) := by
  constructor
  · intro h
    simp [SystemNative_GetAbsoluteTime, h]
  · intro h
    simp [SystemNative_GetAbsoluteTime, h]

/-- C6 witness: without the facility the result is (0, 0). -/
theorem getAbsoluteTime_contract_witness :
    SystemNative_GetAbsoluteTime
        ⟨true, false, false⟩ ⟨⟨0, ⟨0, 0⟩⟩, ⟨0, 1, 1⟩, 42, ⟨0, ⟨0, 0⟩⟩⟩
      = (0, 0) :=
  (getAbsoluteTime_contract ⟨true, false, false⟩
    ⟨⟨0, ⟨0, 0⟩⟩, ⟨0, 1, 1⟩, 42, ⟨0, ⟨0, 0⟩⟩⟩).1 rfl

/-- Helper: the `(uint64_t)` cast of a nonnegative signed value below `2 ^ 64`
is just its natural-number value. -/
theorem castU64_of_nonneg (x : Int) (h0 : 0 ≤ x) (h1 : x < 2 ^ 64) :
    castU64 x = x.toNat := by
  simp only [castU64]
  rw [Int.emod_eq_of_lt h0 (by exact_mod_cast h1)]

/-- C7: on a platform with the high-resolution monotonic clock facility,
`SystemNative_GetTimestamp` always returns 1, and the timestamp written is the
clock reading converted to nanoseconds: `tv_sec * 10^9 + tv_nsec`. -/
theorem getTimestamp_monotonic_path (p : Platform) (w : OSWorld)
    (hcm : p.HAVE_CLOCK_MONOTONIC = true) :
    ((SystemNative_GetTimestamp p w).2 = 1) ∧
    (0 ≤ w.clockMonotonic.ts.tv_sec → 0 ≤ w.clockMonotonic.ts.tv_nsec →
      w.clockMonotonic.ts.tv_sec * 10 ^ 9 + w.clockMonotonic.ts.tv_nsec < 2 ^ 64 →
      (SystemNative_GetTimestamp p w).1
        = (w.clockMonotonic.ts.tv_sec * 10 ^ 9 + w.clockMonotonic.ts.tv_nsec).toNat) := by
  constructor
  · simp [SystemNative_GetTimestamp, hcm]
  · intro hs hn hb
    have hsec : w.clockMonotonic.ts.tv_sec < 2 ^ 64 := by nlinarith
    have hnsec : w.clockMonotonic.ts.tv_nsec < 2 ^ 64 := by nlinarith
    simp only [SystemNative_GetTimestamp, hcm, if_true,
      castU64_of_nonneg _ hs hsec, castU64_of_nonneg _ hn hnsec,
      SecondsToNanoSeconds, u64Mod]
    omega

/-- C7 witness: a reading of 5 seconds and 7 nanoseconds yields timestamp
5000000007 and status 1. -/
theorem getTimestamp_monotonic_path_witness :
    (SystemNative_GetTimestamp
        ⟨true, false, false⟩ ⟨⟨0, ⟨5, 7⟩⟩, ⟨0, 1, 1⟩, 0, ⟨0, ⟨0, 0⟩⟩⟩).2 = 1 ∧
    (SystemNative_GetTimestamp
        ⟨true, false, false⟩ ⟨⟨0, ⟨5, 7⟩⟩, ⟨0, 1, 1⟩, 0, ⟨0, ⟨0, 0⟩⟩⟩).1
      = ((5 : Int) * 10 ^ 9 + 7).toNat :=
  ⟨(getTimestamp_monotonic_path ⟨true, false, false⟩
      ⟨⟨0, ⟨5, 7⟩⟩, ⟨0, 1, 1⟩, 0, ⟨0, ⟨0, 0⟩⟩⟩ rfl).1,
   (getTimestamp_monotonic_path ⟨true, false, false⟩
      ⟨⟨0, ⟨5, 7⟩⟩, ⟨0, 1, 1⟩, 0, ⟨0, ⟨0, 0⟩⟩⟩ rfl).2
     (by decide) (by decide) (by decide)⟩

/-- C8: on the coarse wall-clock fallback platform, a failing `gettimeofday`
makes `SystemNative_GetTimestamp` write 0 and return 0; a successful one makes
it write `tv_sec * 10^6 + tv_usec` and return 1. -/
theorem getTimestamp_fallback_path (p : Platform) (w : OSWorld)
    (hcm : p.HAVE_CLOCK_MONOTONIC = false)
    (hma : p.HAVE_MACH_ABSOLUTE_TIME = false) :
    (w.timeofday.ret ≠ 0 → SystemNative_GetTimestamp p w = (0, 0)) ∧
    (w.timeofday.ret = 0 → 0 ≤ w.timeofday.tv.tv_sec → 0 ≤ w.timeofday.tv.tv_usec →
      w.timeofday.tv.tv_sec * 10 ^ 6 + w.timeofday.tv.tv_usec < 2 ^ 64 →
      SystemNative_GetTimestamp p w
        = ((w.timeofday.tv.tv_sec * 10 ^ 6 + w.timeofday.tv.tv_usec).toNat, 1)) := by
  constructor
  · intro h
    simp [SystemNative_GetTimestamp, hcm, hma, h]
  · intro h hs hn hb
    have hsec : w.timeofday.tv.tv_sec < 2 ^ 64 := by nlinarith
    have husec : w.timeofday.tv.tv_usec < 2 ^ 64 := by nlinarith
    simp only [SystemNative_GetTimestamp, hcm, hma, h, Bool.false_eq_true, if_false,
      if_true, ite_true, ite_false,
      castU64_of_nonneg _ hs hsec, castU64_of_nonneg _ hn husec,
      SecondsToMicroSeconds, u64Mod]
    simp only [Prod.mk.injEq]
    exact ⟨by omega, trivial⟩

/-- C8 witness: a successful `gettimeofday` at 2 seconds and 3 microseconds
yields timestamp 2000003 and status 1. -/
theorem getTimestamp_fallback_path_witness :
    SystemNative_GetTimestamp
        ⟨false, false, false⟩ ⟨⟨0, ⟨0, 0⟩⟩, ⟨0, 1, 1⟩, 0, ⟨0, ⟨2, 3⟩⟩⟩
      = (((2 : Int) * 10 ^ 6 + 3).toNat, 1) :=
  (getTimestamp_fallback_path ⟨false, false, false⟩
      ⟨⟨0, ⟨0, 0⟩⟩, ⟨0, 1, 1⟩, 0, ⟨0, ⟨2, 3⟩⟩⟩ rfl rfl).2
    rfl (by decide) (by decide) (by decide)

/-- C9: `SystemNative_GetTimestampResolution` is deterministic in the platform's
responses: two calls on the same platform configuration in which the monotonic
probe returns the same status and the timebase probe returns the same response
produce the identical written resolution and the identical status; the function
reads no other state. -/
theorem getTimestampResolution_deterministic (p₁ p₂ : Platform) (w₁ w₂ : OSWorld)
    (hp : p₁ = p₂)
    (hc : w₁.clockMonotonic.ret = w₂.clockMonotonic.ret)
    (ht : w₁.timebase = w₂.timebase) :
    SystemNative_GetTimestampResolution p₁ w₁
      = SystemNative_GetTimestampResolution p₂ w₂ := by
  subst hp
  simp only [SystemNative_GetTimestampResolution, hc, ht]

/-- C9 witness: two calls with identical platform responses agree. -/
theorem getTimestampResolution_deterministic_witness :
    SystemNative_GetTimestampResolution
        ⟨true, false, false⟩ ⟨⟨0, ⟨1, 2⟩⟩, ⟨0, 1, 1⟩, 0, ⟨0, ⟨0, 0⟩⟩⟩
      = SystemNative_GetTimestampResolution
        ⟨true, false, false⟩ ⟨⟨0, ⟨3, 4⟩⟩, ⟨0, 1, 1⟩, 9, ⟨-1, ⟨0, 0⟩⟩⟩ :=
  getTimestampResolution_deterministic ⟨true, false, false⟩ ⟨true, false, false⟩
    ⟨⟨0, ⟨1, 2⟩⟩, ⟨0, 1, 1⟩, 0, ⟨0, ⟨0, 0⟩⟩⟩
    ⟨⟨0, ⟨3, 4⟩⟩, ⟨0, 1, 1⟩, 9, ⟨-1, ⟨0, 0⟩⟩⟩ rfl rfl rfl

/-- C10: on the hardware-timebase path, when the probe succeeds with a ratio
whose numerator strictly exceeds its nonzero denominator, the truncating
division `denom / numer` is 0, so `SystemNative_GetTimestampResolution` writes
resolution 0 while still returning 1: a zero resolution does not imply the
failure status. -/
theorem getTimestampResolution_zero_on_success (p : Platform) (w : OSWorld)
    (hcm : p.HAVE_CLOCK_MONOTONIC = false)
    (hma : p.HAVE_MACH_ABSOLUTE_TIME = true)
    (hret : w.timebase.ret = KERN_SUCCESS)
    (_hdpos : 0 < w.timebase.denom)
    (hlt : w.timebase.denom < w.timebase.numer) :
    SystemNative_GetTimestampResolution p w = (0, 1) := by
  simp [SystemNative_GetTimestampResolution, hcm, hma, hret,
    Nat.div_eq_of_lt hlt]

/-- C10 witness: ratio (numer, denom) = (3, 2) with a successful probe yields
resolution 0 with status 1. -/
theorem getTimestampResolution_zero_on_success_witness :
    SystemNative_GetTimestampResolution
        ⟨false, true, true⟩ ⟨⟨0, ⟨0, 0⟩⟩, ⟨0, 3, 2⟩, 0, ⟨0, ⟨0, 0⟩⟩⟩
      = (0, 1) :=
  getTimestampResolution_zero_on_success ⟨false, true, true⟩
    ⟨⟨0, ⟨0, 0⟩⟩, ⟨0, 3, 2⟩, 0, ⟨0, ⟨0, 0⟩⟩⟩ rfl rfl rfl (by decide) (by decide)
